import Mathlib

/-!
Shallow embedding of `src/consumer.c` (hiredis-consumer) and verification of
the specification's claims about it.

Modelling conventions:
* C strings are Lean `String`s (message identifiers are ASCII UUID text).
* External library behaviour (jansson, hiredis) is modelled at its interface:
  a frame payload arrives as the result of `json_loads` (`Option Json`,
  `none` when the text is not parseable as a top-level JSON object/array),
  and a publish attempt's outcome (`reply != NULL && !c->err`) is an explicit
  boolean parameter.
* Uninitialized memory is modelled explicitly: `parseMessage` leaves
  `parsed_message.message_id` untouched on failure, so `processMessage` takes
  the pre-existing stack contents as a parameter (`garbage`); and
  `addProcessedMessage` mallocs `strlen(id) + 1` bytes but `strncpy`s only
  `strlen(id)` of them, so the stored C string is the identifier followed by
  whatever uninitialized heap bytes sit before the first NUL (`junk`).
-/

set_option maxRecDepth 100000

namespace Consumer

/-- Constants from `consumer.h`. -/
def MAX_PROCESSED_MSGS : Nat := 10000

/-- Constant `PUBLISH_CHANNEL` from `consumer.h`. -/
def PUBLISH_CHANNEL : String := "messages:published"

/-- Jansson JSON values, as far as the consumer inspects them: strings,
integers, objects (ordered association lists, as jansson preserves insertion
order when dumping) and arrays. -/
inductive Json where
  | str (s : String)
  | int (n : Int)
  | obj (fields : List (String × Json))
  | arr (elems : List Json)

/-- Model of `json_object_get(root, key)` followed by use of the value:
returns the field's value when `root` is an object containing `key`,
otherwise the NULL that `json_object_get` yields for non-objects or missing
keys, modelled as `none`. -/
def jsonObjectGet : Json → String → Option Json
  | Json.obj fields, key => fields.lookup key
  | _, _ => none

/-- Model of `json_object_set_new(root, key, value)`: on an object, replaces
the value at `key` in place (preserving its position) or appends the new
key-value pair; on any other value the call fails and leaves it unchanged
(the C code ignores the return value). -/
def jsonObjectSet : Json → String → Json → Json
  | Json.obj fields, key, v =>
      if (fields.lookup key).isSome then
        Json.obj (fields.map (fun p => if p.1 = key then (key, v) else p))
      else
        Json.obj (fields ++ [(key, v)])
  | j, _, _ => j

/-- Consumer state (`consumerState`): the array of stored processed-message
C strings; `processed_message_count` is the list's length. -/
abbrev ConsumerState := List String

/-- Model of `isMessageProcessed`: linear scan with `strcmp` over the stored
ids (C-string equality is `String` equality here). -/
def isMessageProcessed (message_id : String) (state : ConsumerState) : Bool :=
  state.any (fun stored => stored = message_id)

/-- Model of `addProcessedMessage`. Below capacity it mallocs
`strlen(message_id) + 1` bytes and copies `strlen(message_id)` characters
with `strncpy`, never writing a NUL terminator: the stored C string is
`message_id ++ junk`, where `junk` is the uninitialized heap content up to
its first NUL byte (empty exactly when the byte after the copy happens to be
zero). At capacity it stores nothing and logs one warning; the returned
`Bool` is whether the capacity warning was emitted. -/
def addProcessedMessage (junk : String) (message_id : String)
    (state : ConsumerState) : ConsumerState × Bool :=
  if state.length < MAX_PROCESSED_MSGS then
    (state ++ [message_id ++ junk], false)
  else
    (state, true)

/-- Model of `parseMessage`: the payload text has already been through
`json_loads` (`none` when unparseable). Requires a string `"message_id"`
field; on success `strncpy(dst, src, 36)` plus explicit termination stores
the first 36 characters. Returns `none` exactly when the C function returns
`-1` (leaving the caller's `Message` buffer untouched). -/
def parseMessage (payload : Option Json) : Option String :=
  match payload with
  | none => none
  | some root =>
      match jsonObjectGet root "message_id" with
      | some (Json.str s) => some (s.take 36)
      | _ => none

/-- Result of one `processMessage` call. `attempted` records whether the
`XADD` command was issued; `appended` is the field list of the stream record
when the append succeeded (`XADD ... message_id %s consumer_id %d` appends
exactly those two fields); `skipped` records the duplicate-skip early
return. -/
structure ProcResult where
  cache : ConsumerState
  attempted : Bool
  appended : Option (List (String × String))
  skipped : Bool
  deriving DecidableEq

/-- Model of `processMessage`. Parameters beyond the code's own:
`garbage` is the uninitialized stack content of `parsed_message.message_id`
(used when `parseMessage` fails, since the code does not return there);
`junk` is the uninitialized heap byte sequence picked up by
`addProcessedMessage`; `pubOk` is whether the `XADD` reply is non-NULL with
no connection error.

Control flow follows the C exactly: parse (failure only logs), duplicate
check and early return, `json_object_set_new` of `message_id` and
`consumer_id` on the original payload (a failed `json_loads` leaves
`json_msg = NULL`, so `json_dumps` returns NULL and the function returns
before the `XADD`), then `XADD` and, only on success, the cache commit. -/
def processMessage (payload : Option Json) (garbage junk : String)
    (pubOk : Bool) (consumer_id : Int) (cache : ConsumerState) : ProcResult :=
  let parsed := parseMessage payload
  let effId := parsed.getD garbage
  if isMessageProcessed effId cache then
    { cache := cache, attempted := false, appended := none, skipped := true }
  else
    match payload with
    | none =>
        -- json_msg is NULL: json_dumps fails, early return before XADD
        { cache := cache, attempted := false, appended := none, skipped := false }
    | some _ =>
        if pubOk then
          { cache := (addProcessedMessage junk effId cache).1
            attempted := true
            appended := some [("message_id", effId),
                              ("consumer_id", toString consumer_id)]
            skipped := false }
        else
          { cache := cache, attempted := true, appended := none, skipped := false }

/-- Modelled from the spec (§4.5, claim C4's wording): the stream record the
claim describes — the original payload object with `message_id` and
`consumer_id` added or overwritten and every other input field preserved.
This is what `json_object_set_new` builds into `modified_message`; the claim
asserts it is what gets appended. -/
def specStreamRecord (payload : Json) (id : String) (consumer_id : Int) : Json :=
  jsonObjectSet (jsonObjectSet payload "message_id" (Json.str id))
    "consumer_id" (Json.int consumer_id)

/-- Keys of a JSON object (empty for non-objects). -/
def jsonKeys : Json → List String
  | Json.obj fields => fields.map Prod.fst
  | _ => []

/-! ## Run loop (`main`, lines 291-330)

The hiredis `redisReader` is external; at its interface it is a buffer into
which `redisReaderFeed` appends bytes and from which `redisReaderGetReply`
extracts at most one complete reply per call, reporting incomplete (reply
NULL) when no complete reply is buffered. We model the buffered bytes as the
list of complete replies they decode to (a trailing partial frame is
irrelevant to the claims and omitted). A reply is either a "published
message" frame — `REDIS_REPLY_ARRAY` with at least 3 elements, whose third
element is the payload text, carried here as its `json_loads` result — or
anything else. -/

/-- One complete reply as seen by the run loop. -/
inductive Reply where
  | msgFrame (payload : Option Json)
  | otherFrame

/-- Model of `redisReaderGetReply`: pops the first complete buffered reply,
or reports incomplete (`none`) when none is buffered. -/
def readerGetReply (buffered : List Reply) : Option Reply × List Reply :=
  match buffered with
  | [] => (none, [])
  | r :: rest => (some r, rest)

/-- Result of the `read(c->fd, ...)` call at the top of the loop:
`n > 0` bytes (decoding to complete frames), `n = 0` (peer closed) or
`n < 0` (I/O error). -/
inductive ReadResult where
  | bytes (chunk : List Reply)
  | closed
  | ioError

/-- State carried across run-loop iterations: the reader's buffered replies,
the dedup cache, and the throughput counters `processed_messages` and
`start_time`. -/
structure LoopState where
  reader : List Reply
  cache : ConsumerState
  processed_messages : Nat
  start_time : Nat

/-- Observable outcome of one loop iteration. -/
structure IterOut where
  state : LoopState
  exitedLoop : Bool
  appended : Option (List (String × String))
  skippedDuplicate : Bool
  reportedRate : Option Nat

/-- Model of one iteration of the `while (1)` loop in `main`. Per iteration
the code feeds whatever one `read` returned and calls `redisReaderGetReply`
exactly once; if the reply is an array with at least 3 elements it calls
`processMessage`, increments `processed_messages`, and reports/resets the
rate when 3 seconds have elapsed since `start_time`. `n <= 0` exits the
loop. `garbage`, `junk`, `pubOk` are the environment of the (at most one)
`processMessage` call; `now` is `time(NULL)`. -/
def runIteration (rd : ReadResult) (garbage junk : String) (pubOk : Bool)
    (consumer_id : Int) (now : Nat) (s : LoopState) : IterOut :=
  match rd with
  | ReadResult.closed =>
      { state := s, exitedLoop := true, appended := none
        skippedDuplicate := false, reportedRate := none }
  | ReadResult.ioError =>
      { state := s, exitedLoop := true, appended := none
        skippedDuplicate := false, reportedRate := none }
  | ReadResult.bytes chunk =>
      let fed := s.reader ++ chunk
      match readerGetReply fed with
      | (none, rest) =>
          { state := { s with reader := rest }, exitedLoop := false
            appended := none, skippedDuplicate := false, reportedRate := none }
      | (some (Reply.otherFrame), rest) =>
          { state := { s with reader := rest }, exitedLoop := false
            appended := none, skippedDuplicate := false, reportedRate := none }
      | (some (Reply.msgFrame payload), rest) =>
          let pr := processMessage payload garbage junk pubOk consumer_id s.cache
          let pm := s.processed_messages + 1
          if 3 ≤ now - s.start_time then
            { state := { reader := rest, cache := pr.cache
                         processed_messages := 0, start_time := now }
              exitedLoop := false, appended := pr.appended
              skippedDuplicate := pr.skipped, reportedRate := some (pm / 3) }
          else
            { state := { reader := rest, cache := pr.cache
                         processed_messages := pm, start_time := s.start_time }
              exitedLoop := false, appended := pr.appended
              skippedDuplicate := pr.skipped, reportedRate := none }

/-! ## Command-line validation (`main`, lines 190-234) -/

/-- One parsed `getopt_long` result, with `atoi` already applied to numeric
option arguments. `help` is the shared `'?'` case (explicit `-?`/`--help` or
an unrecognized option). -/
inductive CliOpt where
  | cOpt (v : Int)
  | gOpt (v : Int)
  | hostOpt
  | portOpt (v : Int)
  | verboseOpt
  | help

/-- Outcome of argument handling: either the accepted
`(consumer_id, consumer_group_size)` pair, or a process exit with the given
code and whether the usage text was printed on the way out. -/
inductive CliOutcome where
  | accepted (consumer_id consumer_group_size : Int)
  | exited (code : Nat) (usagePrinted : Bool)
  deriving DecidableEq

/-- Model of the `getopt_long` loop plus the mandatory-argument check.
`consumer_group_size` and `consumer_id` start at -1. `-g` rejects values
`<= 0` (usage printed, exit 1). `-c` rejects values `<= 0` (usage printed,
exit 1) and values greater than the **current** `consumer_group_size`
(exit 1 with no usage print). `'?'` prints usage and exits 0. After the
loop, a still-unset (`-1`) group size or consumer id prints usage and
exits 1. -/
def parseArgs : List CliOpt → Int → Int → CliOutcome
  | [], gsize, cid =>
      if gsize = -1 ∨ cid = -1 then CliOutcome.exited 1 true
      else CliOutcome.accepted cid gsize
  | opt :: rest, gsize, cid =>
      match opt with
      | CliOpt.gOpt v =>
          if v ≤ 0 then CliOutcome.exited 1 true
          else parseArgs rest v cid
      | CliOpt.cOpt v =>
          if v ≤ 0 then CliOutcome.exited 1 true
          else if gsize < v then CliOutcome.exited 1 false
          else parseArgs rest gsize v
      | CliOpt.hostOpt => parseArgs rest gsize cid
      | CliOpt.portOpt _ => parseArgs rest gsize cid
      | CliOpt.verboseOpt => parseArgs rest gsize cid
      | CliOpt.help => CliOutcome.exited 0 true

/-- Entry point of the model: both accumulators start at -1. -/
def runCli (args : List CliOpt) : CliOutcome :=
  parseArgs args (-1) (-1)

/-! ## Subscription check (`main`, lines 269-282) -/

/-- First reply to `SUBSCRIBE`: a NULL reply or connection error, an array
reply carrying its elements' strings (`element[1]` is the channel name in an
acknowledgment), or a reply of any other type. -/
inductive SubscribeReply where
  | failed
  | arrayReply (elems : List String)
  | otherType
  deriving DecidableEq

/-- What the subscription step does next: terminate the process with an exit
code, or fall through to the run loop, possibly logging a success line
naming a channel. -/
inductive SubscribeOutcome where
  | fatal (code : Nat)
  | proceed (loggedChannel : Option String)
  deriving DecidableEq

/-- Model of the subscription check: a NULL reply or `c->err` exits with
status 1; an array reply with at least 3 elements logs success naming
`element[1]` (whatever it holds); every other reply shape falls through
silently. -/
def checkSubscription : SubscribeReply → SubscribeOutcome
  | SubscribeReply.failed => SubscribeOutcome.fatal 1
  | SubscribeReply.arrayReply elems =>
      if 3 ≤ elems.length then
        SubscribeOutcome.proceed (some (elems.getD 1 ""))
      else
        SubscribeOutcome.proceed none
  | SubscribeReply.otherType => SubscribeOutcome.proceed none

/-! ## Shutdown (`shutdown`, lines 158-168) -/

/-- Global pointers reachable from the signal handler: whether
`global_redis_context` and `global_consumer_state` are non-NULL. -/
structure Globals where
  redisCtxSet : Bool
  consumerStateSet : Bool
  deriving DecidableEq

/-- Model of the release step of `shutdown` (the handler body before
`exit(0)`): calls `redisFree` when the context pointer is non-NULL and
`freeConsumerState` when the state pointer is non-NULL, and — exactly as the
C code — never clears either pointer. Returns the globals afterwards and how
many times each resource was released by this call. -/
def shutdownRelease (g : Globals) : Globals × Nat × Nat :=
  (g, (if g.redisCtxSet then 1 else 0), (if g.consumerStateSet then 1 else 0))

/-- Total release counts over two back-to-back deliveries of the
termination trigger (the second handler entry runs the same body over the
globals the first left behind). -/
def releasesAfterTwoDeliveries (g : Globals) : Nat × Nat :=
  let first := shutdownRelease g
  let second := shutdownRelease first.1
  (first.2.1 + second.2.1, first.2.2 + second.2.2)

/-! ## Theorems -/

/-- Claim C1: for a decoded message whose identifier is not in the dedup
cache, a failed publish leaves the cache untouched and appends nothing
(while the `XADD` was attempted); re-processing the same payload from the
resulting state passes the novelty check and attempts — and, when the reply
is clean, completes — the publish; and the cache is mutated only when the
publish succeeded. -/
theorem publish_gates_dedup_commit (payload : Option Json)
    (pid garbage junk : String) (cid : Int) (cache : ConsumerState)
    (hp : parseMessage payload = some pid)
    (hn : isMessageProcessed pid cache = false) :
    (processMessage payload garbage junk false cid cache).cache = cache
    ∧ (processMessage payload garbage junk false cid cache).appended = none
    ∧ (processMessage payload garbage junk false cid cache).attempted = true
    ∧ (processMessage payload garbage junk true cid
        (processMessage payload garbage junk false cid cache).cache).attempted = true
    ∧ (processMessage payload garbage junk true cid
        (processMessage payload garbage junk false cid cache).cache).appended
        = some [("message_id", pid), ("consumer_id", toString cid)]
    ∧ ∀ b : Bool, (processMessage payload garbage junk b cid cache).cache ≠ cache
        → b = true := by
  match payload with
  | none => simp [parseMessage] at hp
  | some root =>
      have hfalse : processMessage (some root) garbage junk false cid cache
          = { cache := cache, attempted := true, appended := none,
              skipped := false } := by
        simp [processMessage, hp, hn]
      have htrue : processMessage (some root) garbage junk true cid cache
          = { cache := (addProcessedMessage junk pid cache).1, attempted := true,
              appended := some [("message_id", pid), ("consumer_id", toString cid)],
              skipped := false } := by
        simp [processMessage, hp, hn]
      refine ⟨by rw [hfalse], by rw [hfalse], by rw [hfalse],
        by rw [hfalse]; rw [htrue], by rw [hfalse]; rw [htrue], ?_⟩
      intro b hb
      cases b with
      | true => rfl
      | false => rw [hfalse] at hb; simp at hb

/-- Witness for C1 at a concrete input: the UUID payload, an empty cache,
consumer 2. -/
theorem publish_gates_dedup_commit_witness :
    parseMessage (some (Json.obj
        [("message_id", Json.str "aaaaaaaa-aaaa-aaaa-aaaa-aaaaaaaaaaaa")]))
      = some "aaaaaaaa-aaaa-aaaa-aaaa-aaaaaaaaaaaa"
    ∧ isMessageProcessed "aaaaaaaa-aaaa-aaaa-aaaa-aaaaaaaaaaaa" [] = false
    ∧ ((processMessage (some (Json.obj
          [("message_id", Json.str "aaaaaaaa-aaaa-aaaa-aaaa-aaaaaaaaaaaa")]))
          "" "" false 2 []).cache = []
        ∧ (processMessage (some (Json.obj
          [("message_id", Json.str "aaaaaaaa-aaaa-aaaa-aaaa-aaaaaaaaaaaa")]))
          "" "" false 2 []).appended = none
        ∧ (processMessage (some (Json.obj
          [("message_id", Json.str "aaaaaaaa-aaaa-aaaa-aaaa-aaaaaaaaaaaa")]))
          "" "" false 2 []).attempted = true
        ∧ (processMessage (some (Json.obj
          [("message_id", Json.str "aaaaaaaa-aaaa-aaaa-aaaa-aaaaaaaaaaaa")]))
          "" "" true 2
          (processMessage (some (Json.obj
            [("message_id", Json.str "aaaaaaaa-aaaa-aaaa-aaaa-aaaaaaaaaaaa")]))
            "" "" false 2 []).cache).attempted = true
        ∧ (processMessage (some (Json.obj
          [("message_id", Json.str "aaaaaaaa-aaaa-aaaa-aaaa-aaaaaaaaaaaa")]))
          "" "" true 2
          (processMessage (some (Json.obj
            [("message_id", Json.str "aaaaaaaa-aaaa-aaaa-aaaa-aaaaaaaaaaaa")]))
            "" "" false 2 []).cache).appended
          = some [("message_id", "aaaaaaaa-aaaa-aaaa-aaaa-aaaaaaaaaaaa"),
                  ("consumer_id", toString (2 : Int))]
        ∧ ∀ b : Bool, (processMessage (some (Json.obj
            [("message_id", Json.str "aaaaaaaa-aaaa-aaaa-aaaa-aaaaaaaaaaaa")]))
            "" "" b 2 []).cache ≠ [] → b = true) :=
  ⟨by decide, by decide,
    publish_gates_dedup_commit
      (some (Json.obj
        [("message_id", Json.str "aaaaaaaa-aaaa-aaaa-aaaa-aaaaaaaaaaaa")]))
      "aaaaaaaa-aaaa-aaaa-aaaa-aaaaaaaaaaaa" "" "" 2 []
      (by decide) (by decide)⟩

/-- Claim C2 (refuted — the code is buggy here): on a frame whose payload is
valid JSON but whose `message_id` is not a string (`{"message_id":42}`),
`parseMessage` fails, yet `processMessage` does not return: with the
uninitialized stack buffer holding `"g"`, it issues the `XADD` (appending a
record whose `message_id` is the garbage), and commits the garbage into the
dedup cache — contradicting "no dedup-cache mutation and no publish
attempt". -/
theorem decode_failure_still_publishes :
    (processMessage (some (Json.obj [("message_id", Json.int 42)]))
        "g" "" true 2 []).attempted = true
    ∧ (processMessage (some (Json.obj [("message_id", Json.int 42)]))
        "g" "" true 2 []).appended
        = some [("message_id", "g"), ("consumer_id", "2")]
    ∧ (processMessage (some (Json.obj [("message_id", Json.int 42)]))
        "g" "" true 2 []).cache = ["g"] := by
  refine ⟨by decide, by decide, by decide⟩

/-- Claim C3 (refuted): one read delivering two complete frames leaves one
complete frame buffered across the next read — the loop calls
`redisReaderGetReply` once per read instead of looping until incomplete. -/
theorem frames_left_buffered_across_read :
    (runIteration
        (ReadResult.bytes [Reply.msgFrame none, Reply.msgFrame none])
        "" "" true 2 0 { reader := [], cache := [], processed_messages := 0,
                         start_time := 0 }).exitedLoop = false
    ∧ (runIteration
        (ReadResult.bytes [Reply.msgFrame none, Reply.msgFrame none])
        "" "" true 2 0 { reader := [], cache := [], processed_messages := 0,
                         start_time := 0 }).state.reader.length = 1
    ∧ ((readerGetReply (runIteration
        (ReadResult.bytes [Reply.msgFrame none, Reply.msgFrame none])
        "" "" true 2 0 { reader := [], cache := [], processed_messages := 0,
                         start_time := 0 }).state.reader).1).isSome = true := by
  refine ⟨rfl, rfl, rfl⟩

/-- Claim C3 as amended: each iteration of the run loop with a successful
read performs exactly one extraction attempt; the first buffered complete
frame (if any) is consumed and every further complete frame stays buffered
until after the next read. -/
theorem one_frame_extracted_per_read (chunk : List Reply)
    (garbage junk : String) (pubOk : Bool) (cid : Int) (now : Nat)
    (s : LoopState) :
    (runIteration (ReadResult.bytes chunk) garbage junk pubOk cid now
        s).state.reader = (s.reader ++ chunk).drop 1
    ∧ (runIteration (ReadResult.bytes chunk) garbage junk pubOk cid now
        s).exitedLoop = false := by
  rcases h : s.reader ++ chunk with _ | ⟨r, rest2⟩
  · constructor <;> simp [runIteration, readerGetReply, h]
  · cases r with
    | otherFrame => constructor <;> simp [runIteration, readerGetReply, h]
    | msgFrame payload =>
        constructor <;>
          (simp only [runIteration, readerGetReply, h]
           split <;> simp)

/-- Witness for the amended C3 at a concrete read delivering one
non-message frame. -/
theorem one_frame_extracted_per_read_witness :
    (runIteration (ReadResult.bytes [Reply.otherFrame]) "" "" true 2 0
        { reader := [], cache := [], processed_messages := 0,
          start_time := 0 }).state.reader
      = (([] : List Reply) ++ [Reply.otherFrame]).drop 1
    ∧ (runIteration (ReadResult.bytes [Reply.otherFrame]) "" "" true 2 0
        { reader := [], cache := [], processed_messages := 0,
          start_time := 0 }).exitedLoop = false :=
  one_frame_extracted_per_read [Reply.otherFrame] "" "" true 2 0
    { reader := [], cache := [], processed_messages := 0, start_time := 0 }

/-- Claim C4 (refuted): for the payload
`{"message_id":"<uuid>","extra":"x"}`, the appended stream record holds
exactly the fields `message_id` and `consumer_id` (the `XADD` format string
at line 141 names only those two), while the record the claim describes —
the payload with `message_id`/`consumer_id` set — also carries `extra`. -/
theorem appended_record_drops_passthrough_fields :
    (processMessage (some (Json.obj
        [("message_id", Json.str "aaaaaaaa-aaaa-aaaa-aaaa-aaaaaaaaaaaa"),
         ("extra", Json.str "x")])) "" "" true 2 []).appended
      = some [("message_id", "aaaaaaaa-aaaa-aaaa-aaaa-aaaaaaaaaaaa"),
              ("consumer_id", "2")]
    ∧ ([("message_id", "aaaaaaaa-aaaa-aaaa-aaaa-aaaaaaaaaaaa"),
        ("consumer_id", "2")] : List (String × String)).lookup "extra" = none
    ∧ (jsonKeys (specStreamRecord
        (Json.obj [("message_id",
            Json.str "aaaaaaaa-aaaa-aaaa-aaaa-aaaaaaaaaaaa"),
          ("extra", Json.str "x")])
        "aaaaaaaa-aaaa-aaaa-aaaa-aaaaaaaaaaaa" 2)).contains "extra" = true := by
  refine ⟨by decide, by decide, by decide⟩

/-- Claim C4 as amended: every record appended to the durable stream
consists of exactly the two fields `message_id` (the decoded identifier) and
`consumer_id`; the pass-through fields are serialized into the printed
`modified_message` but are not part of the appended record. -/
theorem appended_record_is_id_and_consumer (payload : Option Json)
    (pid garbage junk : String) (cid : Int) (cache : ConsumerState)
    (hp : parseMessage payload = some pid)
    (hn : isMessageProcessed pid cache = false) :
    (processMessage payload garbage junk true cid cache).appended
      = some [("message_id", pid), ("consumer_id", toString cid)] := by
  match payload with
  | none => simp [parseMessage] at hp
  | some root => simp [processMessage, hp, hn]

/-- Witness for the amended C4 at the `{"message_id":"<uuid>","extra":"x"}`
payload. -/
theorem appended_record_is_id_and_consumer_witness :
    parseMessage (some (Json.obj
        [("message_id", Json.str "bbbbbbbb-bbbb-bbbb-bbbb-bbbbbbbbbbbb"),
         ("extra", Json.str "x")]))
      = some "bbbbbbbb-bbbb-bbbb-bbbb-bbbbbbbbbbbb"
    ∧ isMessageProcessed "bbbbbbbb-bbbb-bbbb-bbbb-bbbbbbbbbbbb" [] = false
    ∧ (processMessage (some (Json.obj
        [("message_id", Json.str "bbbbbbbb-bbbb-bbbb-bbbb-bbbbbbbbbbbb"),
         ("extra", Json.str "x")])) "" "" true 3 []).appended
      = some [("message_id", "bbbbbbbb-bbbb-bbbb-bbbb-bbbbbbbbbbbb"),
              ("consumer_id", toString (3 : Int))] :=
  ⟨by decide, by decide,
    appended_record_is_id_and_consumer
      (some (Json.obj
        [("message_id", Json.str "bbbbbbbb-bbbb-bbbb-bbbb-bbbbbbbbbbbb"),
         ("extra", Json.str "x")]))
      "bbbbbbbb-bbbb-bbbb-bbbb-bbbbbbbbbbbb" "" "" 3 []
      (by decide) (by decide)⟩

/-- Claim C5 (refuted): a frame carrying an identifier already in the dedup
cache is skipped (no append, cache unchanged), yet `processed_messages` is
still incremented — the counter counts every published-message frame, not
successful forwards. -/
theorem counter_increments_on_skipped_duplicate :
    (runIteration (ReadResult.bytes [Reply.msgFrame (some (Json.obj
        [("message_id", Json.str "cccccccc-cccc-cccc-cccc-cccccccccccc")]))])
        "" "" true 2 10
        { reader := [], cache := ["cccccccc-cccc-cccc-cccc-cccccccccccc"],
          processed_messages := 5, start_time := 10 }).skippedDuplicate = true
    ∧ (runIteration (ReadResult.bytes [Reply.msgFrame (some (Json.obj
        [("message_id", Json.str "cccccccc-cccc-cccc-cccc-cccccccccccc")]))])
        "" "" true 2 10
        { reader := [], cache := ["cccccccc-cccc-cccc-cccc-cccccccccccc"],
          processed_messages := 5, start_time := 10 }).appended = none
    ∧ (runIteration (ReadResult.bytes [Reply.msgFrame (some (Json.obj
        [("message_id", Json.str "cccccccc-cccc-cccc-cccc-cccccccccccc")]))])
        "" "" true 2 10
        { reader := [], cache := ["cccccccc-cccc-cccc-cccc-cccccccccccc"],
          processed_messages := 5, start_time := 10 }).state.processed_messages
      = 6
    ∧ (runIteration (ReadResult.bytes [Reply.msgFrame (some (Json.obj
        [("message_id", Json.str "cccccccc-cccc-cccc-cccc-cccccccccccc")]))])
        "" "" true 2 10
        { reader := [], cache := ["cccccccc-cccc-cccc-cccc-cccccccccccc"],
          processed_messages := 5, start_time := 10 }).state.cache
      = ["cccccccc-cccc-cccc-cccc-cccccccccccc"] := by
  refine ⟨by decide, by decide, by decide, by decide⟩

/-- Claim C5 as amended: whenever the extracted reply is a published-message
frame (array with at least three elements) and the reporting window has not
elapsed, `processed_messages` is incremented by one — regardless of whether
the frame was skipped as a duplicate, failed to decode, or failed to
publish. -/
theorem counter_counts_every_message_frame (chunk rest : List Reply)
    (payload : Option Json) (garbage junk : String) (pubOk : Bool)
    (cid : Int) (now : Nat) (s : LoopState)
    (hhead : s.reader ++ chunk = Reply.msgFrame payload :: rest)
    (htime : now - s.start_time < 3) :
    (runIteration (ReadResult.bytes chunk) garbage junk pubOk cid now
        s).state.processed_messages = s.processed_messages + 1 := by
  simp only [runIteration, readerGetReply, hhead]
  rw [if_neg (by omega)]

/-- Witness for the amended C5: a decode-failure frame (unparseable payload)
still bumps the counter. -/
theorem counter_counts_every_message_frame_witness :
    (([] : List Reply) ++ [Reply.msgFrame none]
        = Reply.msgFrame none :: [])
    ∧ (7 : Nat) - 6 < 3
    ∧ (runIteration (ReadResult.bytes [Reply.msgFrame none]) "" "" false 2 7
        { reader := [], cache := [], processed_messages := 0,
          start_time := 6 }).state.processed_messages = 0 + 1 :=
  ⟨rfl, by decide,
    counter_counts_every_message_frame [Reply.msgFrame none] [] none
      "" "" false 2 7
      { reader := [], cache := [], processed_messages := 0, start_time := 6 }
      rfl (by decide)⟩

/-- Claim C6 (refuted — the code is buggy here): `addProcessedMessage`
mallocs `strlen(id) + 1` bytes but `strncpy`s only `strlen(id)` of them, so
the stored C string is the identifier followed by uninitialized heap bytes.
When the byte after the copy is nonzero (here `'x'`), the stored string is
`"ax"` and `isMessageProcessed "a"` returns false — the successfully
inserted identifier no longer reports `contains = true`. The capacity parts
of the claim do hold: an insert at capacity stores nothing and warns, an
insert below capacity does not warn. -/
theorem unterminated_copy_defeats_lookup :
    (addProcessedMessage "x" "a" []).1 = ["ax"]
    ∧ (addProcessedMessage "x" "a" []).2 = false
    ∧ isMessageProcessed "a" (addProcessedMessage "x" "a" []).1 = false
    ∧ (addProcessedMessage "" "b" (List.replicate MAX_PROCESSED_MSGS "z")).1
        = List.replicate MAX_PROCESSED_MSGS "z"
    ∧ (addProcessedMessage "" "b" (List.replicate MAX_PROCESSED_MSGS "z")).2
        = true := by
  refine ⟨by decide, by decide, by decide, ?_, ?_⟩ <;>
    (unfold addProcessedMessage
     rw [List.length_replicate, if_neg (lt_irrefl MAX_PROCESSED_MSGS)])

/-- Claim C7 (refuted): the order `-c 2 -g 3` carries valid values
(group size 3 > 0, 0 < consumer id 2 ≤ 3) yet exits with status 1 — the
`-c` bound check compares against the group size parsed so far (still -1) —
and this rejection path does not print the usage text. -/
theorem valid_cli_rejected_when_c_precedes_g :
    runCli [CliOpt.cOpt 2, CliOpt.gOpt 3] = CliOutcome.exited 1 false
    ∧ (0 < (3 : Int) ∧ 0 < (2 : Int) ∧ (2 : Int) ≤ 3) := by
  refine ⟨by decide, by decide⟩

/-- Claim C7 as amended: when `-g` precedes `-c`, validation accepts exactly
the inputs with group-size > 0 and 0 < consumer-id ≤ group-size; every
violation exits with status 1, printing the usage text except in the
consumer-id > group-size case, which exits without it. -/
theorem cli_validation_with_g_first (g c : Int) :
    (runCli [CliOpt.gOpt g, CliOpt.cOpt c] = CliOutcome.accepted c g
      ↔ (0 < g ∧ 0 < c ∧ c ≤ g))
    ∧ (¬(0 < g ∧ 0 < c ∧ c ≤ g)
        → runCli [CliOpt.gOpt g, CliOpt.cOpt c]
            = CliOutcome.exited 1 (decide (g ≤ 0 ∨ c ≤ 0))) := by
  simp only [runCli, parseArgs]
  constructor
  · split_ifs <;> simp_all <;> omega
  · intro hnv
    split_ifs with h1 h2 h3 h4
    · rw [decide_eq_true (Or.inl h1)]
    · rw [decide_eq_true (Or.inr h2)]
    · rw [decide_eq_false (by omega)]
    · exact absurd (by omega) hnv
    · exact absurd (by omega) hnv

/-- Witness for the amended C7 at the violating input `-g 3 -c 5`. -/
theorem cli_validation_with_g_first_witness :
    (¬(0 < (3 : Int) ∧ 0 < (5 : Int) ∧ (5 : Int) ≤ 3))
    ∧ runCli [CliOpt.gOpt 3, CliOpt.cOpt 5]
        = CliOutcome.exited 1 (decide ((3 : Int) ≤ 0 ∨ (5 : Int) ≤ 0)) :=
  ⟨by decide, (cli_validation_with_g_first 3 5).2 (by decide)⟩

/-- Claim C8 (refuted — the code is buggy here): the release step of
`shutdown` frees whichever global pointers are non-NULL but never clears
them, so a second back-to-back delivery of the termination trigger frees the
connection and the consumer state a second time (a double free), instead of
releasing each exactly once. -/
theorem double_delivery_double_releases :
    shutdownRelease { redisCtxSet := true, consumerStateSet := true }
      = ({ redisCtxSet := true, consumerStateSet := true }, 1, 1)
    ∧ releasesAfterTwoDeliveries
        { redisCtxSet := true, consumerStateSet := true } = (2, 2) := by
  refine ⟨by decide, by decide⟩

/-- Claim C9 (refuted): a first reply of unexpected shape is not fatal — the
code only logs the success line when the reply is an array with at least
three elements and otherwise falls through silently — and the
acknowledgment's channel field is echoed without being compared to the
subscribed channel. -/
theorem bad_subscribe_reply_not_fatal :
    checkSubscription SubscribeReply.otherType = SubscribeOutcome.proceed none
    ∧ checkSubscription (SubscribeReply.arrayReply ["subscribe", "wrong", "1"])
        = SubscribeOutcome.proceed (some "wrong")
    ∧ "wrong" ≠ PUBLISH_CHANNEL := by
  refine ⟨by decide, by decide, by decide⟩

/-- Claim C9 as amended: the subscription step terminates the process (with
status 1) exactly when the reply is NULL or carries a connection error;
every other reply shape — acknowledgment-like or not — lets the consumer
proceed to the run loop. -/
theorem only_failed_subscribe_is_fatal (r : SubscribeReply) :
    checkSubscription r = SubscribeOutcome.fatal 1
      ↔ r = SubscribeReply.failed := by
  cases r with
  | failed => simp [checkSubscription]
  | arrayReply elems =>
      simp only [checkSubscription]
      split <;> simp
  | otherType => simp [checkSubscription]

/-- Witness for the amended C9 at the failed reply. -/
theorem only_failed_subscribe_is_fatal_witness :
    checkSubscription SubscribeReply.failed = SubscribeOutcome.fatal 1
      ↔ SubscribeReply.failed = SubscribeReply.failed :=
  only_failed_subscribe_is_fatal SubscribeReply.failed

/-- Claim C10 (refuted): two 37-character identifiers agreeing on their
first 36 characters decode to the same truncated identifier, but with a
nonzero uninitialized heap byte (`'x'`) after the stored copy the second
message is **not** skipped — it is appended to the stream again. -/
theorem truncation_collision_not_skipped :
    parseMessage (some (Json.obj [("message_id",
        Json.str "dddddddd-dddd-dddd-dddd-ddddddddddddX")]))
      = parseMessage (some (Json.obj [("message_id",
        Json.str "dddddddd-dddd-dddd-dddd-ddddddddddddY")]))
    ∧ (processMessage (some (Json.obj [("message_id",
        Json.str "dddddddd-dddd-dddd-dddd-ddddddddddddX")]))
        "" "x" true 2 []).appended.isSome = true
    ∧ (processMessage (some (Json.obj [("message_id",
          Json.str "dddddddd-dddd-dddd-dddd-ddddddddddddY")])) "" "x" true 2
        (processMessage (some (Json.obj [("message_id",
          Json.str "dddddddd-dddd-dddd-dddd-ddddddddddddX")]))
          "" "x" true 2 []).cache).skipped = false
    ∧ (processMessage (some (Json.obj [("message_id",
          Json.str "dddddddd-dddd-dddd-dddd-ddddddddddddY")])) "" "x" true 2
        (processMessage (some (Json.obj [("message_id",
          Json.str "dddddddd-dddd-dddd-dddd-ddddddddddddX")]))
          "" "x" true 2 []).cache).appended.isSome = true := by
  refine ⟨by decide, by decide, by decide, by decide⟩

/-- Claim C10 as amended: the decoder truncates both identifiers to the same
36-character id, and when the byte after the stored copy happens to be zero
(the stored C string is properly terminated), a message carrying the second
identifier after the first was forwarded is skipped as already processed,
with no stream append and no cache change. -/
theorem truncated_ids_collide (s1 s2 garbage : String) (cid : Int)
    (hpre : s1.take 36 = s2.take 36) :
    parseMessage (some (Json.obj [("message_id", Json.str s1)]))
      = parseMessage (some (Json.obj [("message_id", Json.str s2)]))
    ∧ (processMessage (some (Json.obj [("message_id", Json.str s2)]))
        garbage "" true cid
        (processMessage (some (Json.obj [("message_id", Json.str s1)]))
          garbage "" true cid []).cache).skipped = true
    ∧ (processMessage (some (Json.obj [("message_id", Json.str s2)]))
        garbage "" true cid
        (processMessage (some (Json.obj [("message_id", Json.str s1)]))
          garbage "" true cid []).cache).appended = none
    ∧ (processMessage (some (Json.obj [("message_id", Json.str s2)]))
        garbage "" true cid
        (processMessage (some (Json.obj [("message_id", Json.str s1)]))
          garbage "" true cid []).cache).cache
      = (processMessage (some (Json.obj [("message_id", Json.str s1)]))
          garbage "" true cid []).cache := by
  have hp1 : parseMessage (some (Json.obj [("message_id", Json.str s1)]))
      = some (s1.take 36) := rfl
  have hp2 : parseMessage (some (Json.obj [("message_id", Json.str s2)]))
      = some (s1.take 36) := by
    rw [hpre]; rfl
  generalize ht : s1.take 36 = t at hp1 hp2
  have hc1 : (processMessage (some (Json.obj [("message_id", Json.str s1)]))
      garbage "" true cid []).cache = [t] := by
    simp [processMessage, hp1, isMessageProcessed, addProcessedMessage,
      MAX_PROCESSED_MSGS, String.append_empty]
  have hmem : isMessageProcessed t [t] = true := by
    simp [isMessageProcessed]
  have hskip : processMessage (some (Json.obj [("message_id", Json.str s2)]))
      garbage "" true cid [t]
      = { cache := [t], attempted := false, appended := none,
          skipped := true } := by
    simp only [processMessage]
    rw [hp2]
    simp only [Option.getD_some, hmem, if_true]
  exact ⟨by rw [hp1, hp2], by rw [hc1, hskip], by rw [hc1, hskip],
    by rw [hc1, hskip]⟩

/-- Witness for the amended C10: two concrete 37-character identifiers
sharing their first 36 characters. -/
theorem truncated_ids_collide_witness :
    ("eeeeeeee-eeee-eeee-eeee-eeeeeeeeeeeeX" : String).take 36
      = ("eeeeeeee-eeee-eeee-eeee-eeeeeeeeeeeeY" : String).take 36
    ∧ ((processMessage (some (Json.obj [("message_id",
          Json.str "eeeeeeee-eeee-eeee-eeee-eeeeeeeeeeeeY")])) "" "" true 2
        (processMessage (some (Json.obj [("message_id",
          Json.str "eeeeeeee-eeee-eeee-eeee-eeeeeeeeeeeeX")]))
          "" "" true 2 []).cache).skipped = true) :=
  ⟨by decide,
    ((truncated_ids_collide "eeeeeeee-eeee-eeee-eeee-eeeeeeeeeeeeX"
      "eeeeeeee-eeee-eeee-eeee-eeeeeeeeeeeeY" "" 2 (by decide)).2).1⟩

end Consumer
